import Mathlib

/-!
# Debate Prep Generator: request lifecycle and rendering of `frontend/src/App.js`

A shallow embedding of the `Home` component of `frontend/src/App.js`:

* the four `useState` cells (`topic`, `debateData`, `isLoading`, `error`);
* `generateDebateArguments`, split at its single `await` into the part that runs
  inside the submit event and the part that runs when the request settles;
* the JSX of the form, the results section and the sample topics, reduced to the
  attributes and children that depend on the state.

JavaScript values that cross the wire are modelled by `JsValue`.  Numbers carry
an integer payload: nothing below depends on the value of a number.  Strings are
sequences of Unicode code points; every character removed by `trim` lies in the
basic plane, so trimming code points and trimming UTF-16 units agree.

The setter calls made by one synchronous run (the event handler up to the
`await`, or the continuation after it) are applied together, as one transition
of the state: the component is observed between runs, not in the middle of one.
-/

namespace DebateSpark

/-! ## JavaScript values -/

/-- JavaScript values as they appear in a decoded JSON body, plus `undefined`
(the result of reading a property that is absent). -/
inductive JsValue where
  | undefined : JsValue
  | null : JsValue
  | bool (b : Bool) : JsValue
  | num (n : Int) : JsValue
  | str (s : String) : JsValue
  | arr (items : List JsValue) : JsValue
  | obj (fields : List (String × JsValue)) : JsValue

/-- JavaScript truthiness (`ToBoolean`): `undefined`, `null`, `false`, `0` and `""`
are falsy, every array and object is truthy. -/
def JsValue.truthy : JsValue → Bool
  | .undefined => false
  | .null => false
  | .bool b => b
  | .num n => n != 0
  | .str s => s != ""
  | .arr _ => true
  | .obj _ => true

/-- Lookup of a key in the field list of a decoded object; an absent key reads
as `undefined`.  A decoded object has distinct keys; should a list repeat a key,
its first entry is read. -/
def lookupField (key : String) : List (String × JsValue) → JsValue
  | [] => .undefined
  | (k, v) :: rest => if k = key then v else lookupField key rest

/-- Property read `v.key` for a data property `key` that no primitive wrapper or
array defines (`topic`, `arguments_for`, `arguments_against`, `point`,
`supporting_facts`).  Reading from `undefined` or `null` throws a `TypeError`
(`none`); reading from any other non-object yields `undefined`. -/
def JsValue.getProp (v : JsValue) (key : String) : Option JsValue :=
  match v with
  | .undefined => none
  | .null => none
  | .obj fields => some (lookupField key fields)
  | _ => some .undefined

/-- Left-to-right application of a callback to the elements of an array, the
callback receiving `(element, index)`; the first callback that throws aborts the
whole traversal. -/
def mapFrom {β : Type} (f : JsValue → Nat → Option β) : Nat → List JsValue → Option (List β)
  | _, [] => some []
  | i, x :: rest =>
      match f x i with
      | none => none
      | some y =>
          match mapFrom f (i + 1) rest with
          | none => none
          | some ys => some (y :: ys)

/-- Call `v.map(f)`: defined only when `v` is an array, otherwise the read of
`map` or its call throws (`none`). -/
def JsValue.jsMap {β : Type} (v : JsValue) (f : JsValue → Nat → Option β) :
    Option (List β) :=
  match v with
  | .arr items => mapFrom f 0 items
  | _ => none

/-! ## `String.prototype.trim` -/

/-- Code points removed by `String.prototype.trim`: ECMAScript `WhiteSpace`
(TAB, VT, FF, ZWNBSP and the Unicode space separators) and `LineTerminator`
(LF, CR, LS, PS). -/
def isJsWhiteSpace (c : Char) : Bool :=
  let n := c.toNat
  n == 0x09 || n == 0x0A || n == 0x0B || n == 0x0C || n == 0x0D || n == 0x20 ||
  n == 0xA0 || n == 0x1680 || (0x2000 ≤ n && n ≤ 0x200A) || n == 0x2028 ||
  n == 0x2029 || n == 0x202F || n == 0x205F || n == 0x3000 || n == 0xFEFF

/-- Strip leading white space. -/
def trimStartChars (cs : List Char) : List Char :=
  cs.dropWhile isJsWhiteSpace

/-- Strip trailing white space. -/
def trimEndChars (cs : List Char) : List Char :=
  (cs.reverse.dropWhile isJsWhiteSpace).reverse

/-- The method `String.prototype.trim`. -/
def jsTrim (s : String) : String :=
  ⟨trimEndChars (trimStartChars s.data)⟩

/-! ## Component state -/

/-- The four `useState` cells of `Home` (App.js lines 13-16). -/
structure State where
  topic : String
  debateData : JsValue
  isLoading : Bool
  error : String

/-- Initial values handed to `useState`. -/
def State.init : State :=
  { topic := "", debateData := .null, isLoading := false, error := "" }

/-- The setter `setTopic`. -/
def setTopic (s : State) (v : String) : State := { s with topic := v }

/-- The setter `setDebateData`. -/
def setDebateData (s : State) (v : JsValue) : State := { s with debateData := v }

/-- The setter `setIsLoading`. -/
def setIsLoading (s : State) (v : Bool) : State := { s with isLoading := v }

/-- The setter `setError`. -/
def setError (s : State) (v : String) : State := { s with error := v }

/-! ## Network interface -/

/-- Value of `API_BASE` (line 9): `process.env.REACT_APP_API_URL || <default>`, so
an unset or empty variable selects the default. -/
def API_BASE (envUrl : Option String) : String :=
  match envUrl with
  | some u => if u != "" then u else "https://8001-irinajr69yng4kycuc4o4.e2b.app"
  | none => "https://8001-irinajr69yng4kycuc4o4.e2b.app"

/-- Value of `API` (line 10). -/
def API (envUrl : Option String) : String := API_BASE envUrl ++ "/api"

/-- An outbound HTTP request as handed to axios. -/
structure Request where
  method : String
  url : String
  body : JsValue

/-- The call `axios.post(url, data)`. -/
def axiosPost (url : String) (data : JsValue) : Request :=
  { method := "POST", url := url, body := data }

/-- The response object of a fulfilled axios promise. -/
structure Response where
  status : Nat
  data : JsValue

/-- The error object of a rejected axios promise: a message, and the response
when the server answered at all. -/
structure AxiosError where
  message : String
  response : Option Response

/-- How the promise returned by `axios.post` settles. -/
inductive Settled where
  | fulfilled (response : Response) : Settled
  | rejected (err : AxiosError) : Settled

/-- What happened on the wire: no response at all, or a response with a status. -/
inductive HttpResult where
  | noResponse (reason : String) : HttpResult
  | answered (response : Response) : HttpResult

/-- Settlement of an axios promise under the library's default `validateStatus`
(`status >= 200 && status < 300`); the repository passes no request config, so
the default applies.  The body is handed over as decoded, without any schema. -/
def axiosSettle : HttpResult → Settled
  | .noResponse reason => .rejected { message := reason, response := none }
  | .answered r =>
      if 200 ≤ r.status ∧ r.status < 300 then .fulfilled r
      else .rejected { message := "Request failed with status code " ++ toString r.status,
                       response := some r }

/-! ## `generateDebateArguments` -/

/-- Result of the synchronous part of `generateDebateArguments`: the new state and
the request issued, if any. -/
structure SubmitResult where
  state : State
  request : Option Request

/-- The function `generateDebateArguments` up to its `await` (lines 18-30): the validation
branch returns without a request, the other branch sets the loading flag, clears
the error and posts the trimmed topic. -/
def generateDebateArguments (envUrl : Option String) (s : State) : SubmitResult :=
  if !(JsValue.str (jsTrim s.topic)).truthy then
    { state := setError s "Please enter a debate topic", request := none }
  else
    let s1 := setIsLoading s true
    let s2 := setError s1 ""
    { state := s2
      request := some (axiosPost (API envUrl ++ "/generate-debate")
        (.obj [("topic", .str (jsTrim s.topic))])) }

/-- One `console.error` call: its label and the logged value. -/
structure ConsoleEntry where
  label : String
  err : AxiosError

/-- Result of the continuation of `generateDebateArguments`: the new state and what
was written to the console. -/
structure ResumeResult where
  state : State
  logged : List ConsoleEntry

/-- The function `generateDebateArguments` after its `await` (lines 32-38), run against the
state current when the promise settles: `try` stores `response.data`, `catch`
logs the error and sets the fixed message, `finally` clears the loading flag. -/
def generateDebateArguments_resume (s : State) (outcome : Settled) : ResumeResult :=
  match outcome with
  | .fulfilled response =>
      let s1 := setDebateData s response.data
      { state := setIsLoading s1 false, logged := [] }
  | .rejected err =>
      let s1 := setError s "Failed to generate debate arguments. Please try again."
      { state := setIsLoading s1 false
        logged := [{ label := "Error generating debate arguments:", err := err }] }

/-- The handler `handleSubmit` (lines 41-44): `preventDefault` has no effect on the
component state, the rest is `generateDebateArguments`. -/
def handleSubmit (envUrl : Option String) (s : State) : SubmitResult :=
  generateDebateArguments envUrl s

/-! ## Rendering -/

/-- A JSX slot of the form `{cond && <element/>}`: either the falsy value of
`cond` itself or the element. -/
inductive Slot (α : Type) where
  | value (v : JsValue) : Slot α
  | element (a : α) : Slot α

/-- The `<Input>` of lines 70-77. -/
structure InputView where
  value : String
  disabled : Bool

/-- The submit `<Button>` of lines 78-84. -/
structure SubmitButtonView where
  disabled : Bool
  label : String

/-- The `<form>` of lines 68-89. -/
structure FormView where
  input : InputView
  submit : SubmitButtonView
  errorSlot : Slot String

/-- The form: the input is disabled by `isLoading`, the button by
`isLoading || !topic.trim()`, and the error paragraph is `error && <p>`. -/
def renderForm (s : State) : FormView :=
  { input := { value := s.topic, disabled := s.isLoading }
    submit :=
      { disabled := s.isLoading || !(JsValue.str (jsTrim s.topic)).truthy
        label := if s.isLoading then "Generating..." else "Generate" }
    errorSlot :=
      if (JsValue.str s.error).truthy then .element s.error else .value (.str s.error) }

/-- One `<li>` of a fact list (lines 116-119, 148-151). -/
structure FactView where
  key : Nat
  fact : JsValue

/-- One argument block (lines 110-122, 142-154): the heading shows
`{index + 1}. {argument.point}`, the list shows the supporting facts. -/
structure ArgumentView where
  key : Nat
  number : Nat
  point : JsValue
  facts : List FactView

/-- One of the two result cards: the topic in its description and its argument
blocks. -/
structure ColumnView where
  topic : JsValue
  entries : List ArgumentView

/-- The results grid of lines 95-159. -/
structure ResultsView where
  argumentsFor : ColumnView
  argumentsAgainst : ColumnView

/-- Callback of `argument.supporting_facts.map((fact, factIndex) => ...)`. -/
def renderFact (fact : JsValue) (factIndex : Nat) : Option FactView :=
  some { key := factIndex, fact := fact }

/-- Callback of `debateData.arguments_for.map((argument, index) => ...)` and of its
`arguments_against` twin, which differ in colours only. -/
def renderArgument (argument : JsValue) (index : Nat) : Option ArgumentView :=
  match argument.getProp "point" with
  | none => none
  | some point =>
      match argument.getProp "supporting_facts" with
      | none => none
      | some supporting =>
          match supporting.jsMap renderFact with
          | none => none
          | some facts =>
              some { key := index, number := index + 1, point := point, facts := facts }

/-- One result card for the argument list stored under `field`. -/
def renderColumn (debateData : JsValue) (field : String) : Option ColumnView :=
  match debateData.getProp "topic" with
  | none => none
  | some topic =>
      match debateData.getProp field with
      | none => none
      | some arguments =>
          match arguments.jsMap renderArgument with
          | none => none
          | some entries => some { topic := topic, entries := entries }

/-- The slot `{debateData && (...)}` of lines 94-160; `none` when evaluating the
JSX throws. -/
def renderResults (debateData : JsValue) : Option (Slot ResultsView) :=
  if debateData.truthy then
    match renderColumn debateData "arguments_for" with
    | none => none
    | some forColumn =>
        match renderColumn debateData "arguments_against" with
        | none => none
        | some againstColumn =>
            some (.element { argumentsFor := forColumn, argumentsAgainst := againstColumn })
  else some (.value debateData)

/-- The array literal of lines 170-177. -/
def sampleTopics : List String :=
  [ "Should social media be regulated by government?",
    "Is remote work better than office work?",
    "Should college education be free?",
    "Is artificial intelligence a threat to jobs?",
    "Should animal testing be banned?",
    "Is nuclear energy a viable solution for climate change?" ]

/-- One sample `<Button>` (lines 178-186); `onClickTopic` is the argument its
`onClick` passes to `setTopic`. -/
structure SampleButtonView where
  key : Nat
  label : String
  onClickTopic : String
  disabled : Bool

/-- The `.map((sampleTopic, index) => ...)` of lines 177-187. -/
def sampleButtonsFrom (isLoading : Bool) : Nat → List String → List SampleButtonView
  | _, [] => []
  | i, sampleTopic :: rest =>
      { key := i, label := sampleTopic, onClickTopic := sampleTopic, disabled := isLoading }
        :: sampleButtonsFrom isLoading (i + 1) rest

/-- The slot `{!debateData && (...)}` of lines 163-191. -/
def renderSamples (s : State) : Slot (List SampleButtonView) :=
  if !s.debateData.truthy then .element (sampleButtonsFrom s.isLoading 0 sampleTopics)
  else .value (.bool false)

/-- What `Home` returns, reduced to its state-dependent parts. -/
structure View where
  form : FormView
  results : Slot ResultsView
  samples : Slot (List SampleButtonView)

/-- The component function `Home` on a given state: its `return (...)` of lines 46-201,
`none` when evaluating the JSX throws. -/
def Home (s : State) : Option View :=
  match renderResults s.debateData with
  | none => none
  | some results =>
      some { form := renderForm s, results := results, samples := renderSamples s }

/-! ## Event loop -/

/-- The component together with its environment: requests still in flight (in the
order they were issued), every request ever issued, and the console. -/
structure World where
  ui : State
  pending : List Request
  sent : List Request
  console : List ConsoleEntry

/-- The world right after mounting. -/
def World.init : World :=
  { ui := State.init, pending := [], sent := [], console := [] }

/-- Events delivered to the component. -/
inductive Event where
  | changeTopic (text : String) : Event
  | selectSample (sampleTopic : String) : Event
  | submit : Event
  | settle (index : Nat) (outcome : Settled) : Event

/-- Handling of one event: `onChange` (line 74) and the sample `onClick`
(line 181) call `setTopic`, the form `onSubmit` runs `handleSubmit`, and the
settling of the request at position `index` of the in-flight list resumes
`generateDebateArguments`.  Settling a request that is not in flight is not an
event of the system (`none`). -/
def step (envUrl : Option String) (w : World) : Event → Option World
  | .changeTopic text => some { w with ui := setTopic w.ui text }
  | .selectSample sampleTopic => some { w with ui := setTopic w.ui sampleTopic }
  | .submit =>
      let r := handleSubmit envUrl w.ui
      some { w with ui := r.state
                    pending := w.pending ++ r.request.toList
                    sent := w.sent ++ r.request.toList }
  | .settle index outcome =>
      if index < w.pending.length then
        let r := generateDebateArguments_resume w.ui outcome
        some { w with ui := r.state
                      pending := w.pending.eraseIdx index
                      console := w.console ++ r.logged }
      else none

/-- Handling of a sequence of events, oldest first. -/
def run (envUrl : Option String) (w : World) : List Event → Option World
  | [] => some w
  | e :: rest =>
      match step envUrl w e with
      | none => none
      | some w1 => run envUrl w1 rest

/-- The response body of the last fulfilled settlement in a sequence of events. -/
def lastFulfilled : List Event → Option JsValue
  | [] => none
  | e :: rest =>
      match lastFulfilled rest with
      | some body => some body
      | none =>
          match e with
          | .settle _ (.fulfilled response) => some response.data
          | _ => none

/-- Guard on submits: made only while the submit button is enabled or the state is
not loading.  Other events are unguarded. -/
def allowed (w : World) : Event → Bool
  | .submit => !(renderForm w.ui).submit.disabled || !w.ui.isLoading
  | _ => true

/-- Worlds reachable from the initial one by allowed events. -/
inductive Reachable (envUrl : Option String) : World → Prop where
  | init : Reachable envUrl World.init
  | next {w w1 : World} (e : Event) (hw : Reachable envUrl w) (ha : allowed w e = true)
      (hs : step envUrl w e = some w1) : Reachable envUrl w1

/-! ## Predicates and example data used in the statements -/

/-- A world whose topic is blanks and tabs, with a stored result, a request in
flight and an earlier error. -/
def blankTopicWorld : World :=
  { ui := { topic := "  \t ", debateData := .obj [], isLoading := true, error := "old" }
    pending := [axiosPost "u" .null]
    sent := [axiosPost "u" .null]
    console := [] }

/-- A fresh world whose topic carries white space on both sides. -/
def paddedTopicWorld : World :=
  { World.init with ui := setTopic State.init "  Is remote work better? \n" }

/-- A state in which a request is in flight. -/
def loadingState : State :=
  { topic := "Should college education be free?", debateData := .null,
    isLoading := true, error := "" }

/-- A state in which the submit button is enabled. -/
def readyState : State :=
  { topic := " Should animal testing be banned? ", debateData := .null,
    isLoading := false, error := "Please enter a debate topic" }

/-- A 200 response whose body has no `arguments_for` and whose
`arguments_against` is not a list. -/
def malformedResponse : Response :=
  { status := 200
    data := .obj [("topic", .str "x"), ("arguments_against", .str "none")] }

/-- The response of the example scenario: one argument for with two facts, one
argument against with one fact. -/
def exampleResponse : Response :=
  { status := 200
    data := .obj
      [ ("topic", .str "Is remote work better than office work?"),
        ("arguments_for", .arr
          [ .obj [ ("point", .str "Flexibility"),
                   ("supporting_facts", .arr
                     [ .str "Reduces commute time", .str "Improves work-life balance" ]) ] ]),
        ("arguments_against", .arr
          [ .obj [ ("point", .str "Reduced collaboration"),
                   ("supporting_facts", .arr [ .str "Harder spontaneous communication" ]) ] ]) ] }

/-- Another well-formed response, for a different topic. -/
def otherResponse : Response :=
  { status := 200
    data := .obj
      [ ("topic", .str "Should college education be free?"),
        ("arguments_for", .arr []),
        ("arguments_against", .arr []) ] }

/-- Two submits without waiting, so that two requests are in flight. -/
def twoSubmits : List Event :=
  [ .changeTopic "Should college education be free?", .submit,
    .changeTopic "Is remote work better than office work?", .submit ]

/-- The world after `twoSubmits`. -/
def twoInFlight : World := (run none World.init twoSubmits).getD World.init

/-- The newer request is answered first, the older one fails, a third one is
issued and answered, and a last one fails. -/
def mixedSettlements : List Event :=
  [ .settle 1 (.fulfilled exampleResponse),
    .settle 0 (.rejected { message := "Network Error", response := none }),
    .submit,
    .settle 0 (.fulfilled otherResponse),
    .submit,
    .settle 0 (.rejected { message := "timeout", response := none }) ]

/-- The world after `mixedSettlements`, starting from `twoInFlight`. -/
def afterMixedSettlements : World := (run none twoInFlight mixedSettlements).getD World.init

/-- One full cycle: type a topic, submit, receive the example response. -/
def oneCycle : List Event :=
  [ .changeTopic "Is remote work better than office work?", .submit,
    .settle 0 (.fulfilled exampleResponse) ]

/-- The world after `oneCycle`: a result is stored and nothing is in flight. -/
def successWorld : World := (run none World.init oneCycle).getD World.init

/-- The three flags exclude each other pairwise: loading (`isLoading`), error
(`error` non-empty) and success (`debateData` non-null). -/
def AtMostOneActive (s : State) : Prop :=
  ¬ (s.isLoading = true ∧ s.error ≠ "") ∧
  ¬ (s.isLoading = true ∧ s.debateData ≠ .null) ∧
  ¬ (s.error ≠ "" ∧ s.debateData ≠ .null)

/-- Handling of a sequence of events each of which is allowed when it occurs. -/
def runAllowed (envUrl : Option String) (w : World) : List Event → Option World
  | [] => some w
  | e :: rest =>
      if allowed w e then
        match step envUrl w e with
        | none => none
        | some w1 => runAllowed envUrl w1 rest
      else none

/-- A successful cycle followed by a second submit of the same topic. -/
def resubmit : List Event := oneCycle ++ [.submit]

/-- The world after `resubmit`. -/
def loadingWithResult : World := (runAllowed none World.init resubmit).getD World.init

/-- A successful cycle, a second submit, and the failure of the second request. -/
def resubmitFails : List Event :=
  resubmit ++ [.settle 0 (.rejected { message := "Network Error", response := none })]

/-- The world after `resubmitFails`. -/
def errorWithResult : World := (runAllowed none World.init resubmitFails).getD World.init

/-- An argument of the response: the fields read by the argument blocks
(`argument.point`, `argument.supporting_facts`). -/
structure Argument where
  point : String
  supporting_facts : List String

/-- A debate result: the fields read by the results section (`debateData.topic`,
`debateData.arguments_for`, `debateData.arguments_against`). -/
structure DebateResult where
  topic : String
  arguments_for : List Argument
  arguments_against : List Argument

/-- The value `v` carries the argument `a`: its `point` is that string and its
`supporting_facts` is the array of those strings.  Other fields and the order
of fields are free. -/
def IsArgument (v : JsValue) (a : Argument) : Prop :=
  v.getProp "point" = some (.str a.point) ∧
  v.getProp "supporting_facts" = some (.arr (a.supporting_facts.map JsValue.str))

/-- The value `v` carries the debate result `d`. -/
def IsDebateResult (v : JsValue) (d : DebateResult) : Prop :=
  v.getProp "topic" = some (.str d.topic) ∧
  (∃ items, v.getProp "arguments_for" = some (.arr items) ∧
    List.Forall₂ IsArgument items d.arguments_for) ∧
  (∃ items, v.getProp "arguments_against" = some (.arr items) ∧
    List.Forall₂ IsArgument items d.arguments_against)

/-- The rendered block `e` is the block of argument `a` at position `index`: it
is numbered `index + 1`, shows the point, and lists the facts one item per fact
in order, keyed by position. -/
def ShowsArgument (index : Nat) (a : Argument) (e : ArgumentView) : Prop :=
  e.key = index ∧ e.number = index + 1 ∧ e.point = .str a.point ∧
  e.facts.map FactView.fact = a.supporting_facts.map JsValue.str ∧
  e.facts.map FactView.key = List.range a.supporting_facts.length

/-- The example scenario as a typed result. -/
def exampleResult : DebateResult :=
  { topic := "Is remote work better than office work?"
    arguments_for :=
      [ { point := "Flexibility"
          supporting_facts := [ "Reduces commute time", "Improves work-life balance" ] } ]
    arguments_against :=
      [ { point := "Reduced collaboration"
          supporting_facts := [ "Harder spontaneous communication" ] } ] }

/-! ## Facts about `trim` -/

theorem trimEndChars_eq_nil_iff (cs : List Char) :
    trimEndChars cs = [] ↔ ∀ c ∈ cs, isJsWhiteSpace c = true := by
  unfold trimEndChars
  rw [List.reverse_eq_nil_iff, List.dropWhile_eq_nil_iff]
  simp

theorem trimStartChars_head (cs : List Char) (c : Char)
    (h : (trimStartChars cs).head? = some c) : isJsWhiteSpace c = false := by
  induction cs with
  | nil => simp [trimStartChars] at h
  | cons a rest ih =>
      unfold trimStartChars at h ih
      by_cases ha : isJsWhiteSpace a = true
      · rw [List.dropWhile_cons_of_pos ha] at h
        exact ih h
      · rw [List.dropWhile_cons_of_neg ha] at h
        simp at h
        subst h
        simpa using ha

theorem trimStartChars_eq_nil_iff (cs : List Char) :
    trimStartChars cs = [] ↔ ∀ c ∈ cs, isJsWhiteSpace c = true := by
  unfold trimStartChars
  exact List.dropWhile_eq_nil_iff

/-- The trimmed string is empty exactly when every character is white space. -/
theorem jsTrim_eq_empty_iff (s : String) :
    jsTrim s = "" ↔ ∀ c ∈ s.data, isJsWhiteSpace c = true := by
  have h0 : jsTrim s = "" ↔ trimEndChars (trimStartChars s.data) = [] := by
    unfold jsTrim
    constructor
    · intro h
      have := congrArg String.data h
      simpa using this
    · intro h
      rw [h]
  rw [h0, trimEndChars_eq_nil_iff]
  constructor
  · intro h
    rw [← trimStartChars_eq_nil_iff]
    cases hd : trimStartChars s.data with
    | nil => rfl
    | cons a rest =>
        have h1 : isJsWhiteSpace a = false :=
          trimStartChars_head s.data a (by rw [hd]; rfl)
        have h2 : isJsWhiteSpace a = true := h a (by rw [hd]; simp)
        rw [h1] at h2
        cases h2
  · intro h c hc
    have : trimStartChars s.data = [] := (trimStartChars_eq_nil_iff _).2 h
    rw [this] at hc
    cases hc

/-- Shape of the trimmed string: the input is a run of white space, the trimmed
string, and another run of white space, and the trimmed string neither starts
nor ends with white space. -/
theorem jsTrim_shape (s : String) :
    ∃ pre suf : List Char,
      s.data = pre ++ (jsTrim s).data ++ suf ∧
      (∀ c ∈ pre, isJsWhiteSpace c = true) ∧
      (∀ c ∈ suf, isJsWhiteSpace c = true) ∧
      (∀ c, (jsTrim s).data.head? = some c → isJsWhiteSpace c = false) ∧
      (∀ c, (jsTrim s).data.getLast? = some c → isJsWhiteSpace c = false) := by
  have hdata : (jsTrim s).data = List.rdropWhile isJsWhiteSpace (trimStartChars s.data) := rfl
  have hsplit : List.rdropWhile isJsWhiteSpace (trimStartChars s.data) ++
      ((trimStartChars s.data).reverse.takeWhile isJsWhiteSpace).reverse
        = trimStartChars s.data := by
    unfold List.rdropWhile
    rw [← List.reverse_append, List.takeWhile_append_dropWhile, List.reverse_reverse]
  refine ⟨s.data.takeWhile isJsWhiteSpace,
    ((trimStartChars s.data).reverse.takeWhile isJsWhiteSpace).reverse, ?_, ?_, ?_, ?_, ?_⟩
  · rw [hdata, List.append_assoc, hsplit]
    unfold trimStartChars
    rw [List.takeWhile_append_dropWhile]
  · intro c hc
    exact List.mem_takeWhile_imp hc
  · intro c hc
    rw [List.mem_reverse] at hc
    exact List.mem_takeWhile_imp hc
  · intro c hc
    rw [hdata] at hc
    apply trimStartChars_head s.data c
    rw [← hsplit]
    cases hr : List.rdropWhile isJsWhiteSpace (trimStartChars s.data) with
    | nil => rw [hr] at hc; cases hc
    | cons a rest => rw [hr] at hc; simpa using hc
  · intro c hc
    rw [hdata] at hc
    have hne : List.rdropWhile isJsWhiteSpace (trimStartChars s.data) ≠ [] := by
      intro h0
      rw [h0] at hc
      cases hc
    have hnot := List.rdropWhile_last_not isJsWhiteSpace (trimStartChars s.data) hne
    rw [List.getLast?_eq_getLast _ hne] at hc
    injection hc with hc
    rw [hc] at hnot
    simpa using hnot

/-! ## Submit -/

theorem generateDebateArguments_blank (envUrl : Option String) (s : State)
    (h : jsTrim s.topic = "") :
    generateDebateArguments envUrl s =
      { state := setError s "Please enter a debate topic", request := none } := by
  unfold generateDebateArguments
  simp [JsValue.truthy, h]

theorem generateDebateArguments_nonblank (envUrl : Option String) (s : State)
    (h : jsTrim s.topic ≠ "") :
    generateDebateArguments envUrl s =
      { state := setError (setIsLoading s true) ""
        request := some (axiosPost (API envUrl ++ "/generate-debate")
          (.obj [("topic", .str (jsTrim s.topic))])) } := by
  unfold generateDebateArguments
  simp [JsValue.truthy, h]

/-- C1: when the topic trims to the empty string (it is empty or made of white
space only), a submit from any world issues
no request (the in-flight list and the list of requests sent are unchanged, and
`generateDebateArguments` returns no request) and sets `error` to exactly
"Please enter a debate topic", leaving the other three cells as they were. -/
theorem C1_blank_topic_no_request (envUrl : Option String) (w : World)
    (h : jsTrim w.ui.topic = "") :
    (∀ c ∈ w.ui.topic.data, isJsWhiteSpace c = true) ∧
    (generateDebateArguments envUrl w.ui).request = none ∧
    ∃ w1, step envUrl w .submit = some w1 ∧
      w1.sent = w.sent ∧ w1.pending = w.pending ∧
      w1.ui.error = "Please enter a debate topic" ∧
      w1.ui.topic = w.ui.topic ∧ w1.ui.debateData = w.ui.debateData ∧
      w1.ui.isLoading = w.ui.isLoading := by
  have hg := generateDebateArguments_blank envUrl w.ui h
  refine ⟨(jsTrim_eq_empty_iff w.ui.topic).1 h, by rw [hg], ?_⟩
  refine ⟨_, rfl, ?_⟩
  simp [handleSubmit, hg, setError]

theorem C1_blank_topic_no_request_witness :
    jsTrim blankTopicWorld.ui.topic = "" ∧
    (∀ c ∈ blankTopicWorld.ui.topic.data, isJsWhiteSpace c = true) ∧
    (generateDebateArguments none blankTopicWorld.ui).request = none ∧
    ∃ w1, step none blankTopicWorld .submit = some w1 ∧
      w1.sent = blankTopicWorld.sent ∧ w1.pending = blankTopicWorld.pending ∧
      w1.ui.error = "Please enter a debate topic" ∧
      w1.ui.topic = blankTopicWorld.ui.topic ∧
      w1.ui.debateData = blankTopicWorld.ui.debateData ∧
      w1.ui.isLoading = blankTopicWorld.ui.isLoading :=
  ⟨by decide, C1_blank_topic_no_request none blankTopicWorld (by decide)⟩

/-- C2: when the trimmed topic is non-empty, a submit issues exactly one request
(one entry is appended to the requests sent and to those in flight), a POST to
`API/generate-debate` whose body is `{ topic: topic.trim() }`; the topic sent is
the input without its leading and trailing runs of white space, and it neither
starts nor ends with white space. -/
theorem C2_submit_posts_trimmed_topic (envUrl : Option String) (w : World)
    (h : jsTrim w.ui.topic ≠ "") :
    ∃ w1 req, step envUrl w .submit = some w1 ∧
      w1.sent = w.sent ++ [req] ∧ w1.pending = w.pending ++ [req] ∧
      req.method = "POST" ∧
      req.url = API envUrl ++ "/generate-debate" ∧
      req.body = .obj [("topic", .str (jsTrim w.ui.topic))] ∧
      ∃ pre suf : List Char,
        w.ui.topic.data = pre ++ (jsTrim w.ui.topic).data ++ suf ∧
        (∀ c ∈ pre, isJsWhiteSpace c = true) ∧
        (∀ c ∈ suf, isJsWhiteSpace c = true) ∧
        (∀ c, (jsTrim w.ui.topic).data.head? = some c → isJsWhiteSpace c = false) ∧
        (∀ c, (jsTrim w.ui.topic).data.getLast? = some c → isJsWhiteSpace c = false) := by
  have hg := generateDebateArguments_nonblank envUrl w.ui h
  refine ⟨_, axiosPost (API envUrl ++ "/generate-debate")
    (.obj [("topic", .str (jsTrim w.ui.topic))]), rfl, ?_, ?_, rfl, rfl, rfl,
    jsTrim_shape w.ui.topic⟩
  · simp [handleSubmit, hg]
  · simp [handleSubmit, hg]

theorem C2_submit_posts_trimmed_topic_witness :
    jsTrim paddedTopicWorld.ui.topic = "Is remote work better?" ∧
    ∃ w1 req, step none paddedTopicWorld .submit = some w1 ∧
      w1.sent = paddedTopicWorld.sent ++ [req] ∧
      w1.pending = paddedTopicWorld.pending ++ [req] ∧
      req.method = "POST" ∧
      req.url = API none ++ "/generate-debate" ∧
      req.body = .obj [("topic", .str (jsTrim paddedTopicWorld.ui.topic))] ∧
      ∃ pre suf : List Char,
        paddedTopicWorld.ui.topic.data
          = pre ++ (jsTrim paddedTopicWorld.ui.topic).data ++ suf ∧
        (∀ c ∈ pre, isJsWhiteSpace c = true) ∧
        (∀ c ∈ suf, isJsWhiteSpace c = true) ∧
        (∀ c, (jsTrim paddedTopicWorld.ui.topic).data.head? = some c →
          isJsWhiteSpace c = false) ∧
        (∀ c, (jsTrim paddedTopicWorld.ui.topic).data.getLast? = some c →
          isJsWhiteSpace c = false) :=
  ⟨by decide, C2_submit_posts_trimmed_topic none paddedTopicWorld (by decide)⟩

/-! ## Settling -/

/-- C3: whatever error the request is rejected with, the state after the
continuation has `error` equal to the fixed message and `isLoading` false, keeps
`topic` and `debateData`, and is the same state for any two errors, so the form
rendered from it is the same as well; the error itself goes to the console only.
Under the default status check of axios every transport failure and every
response outside 200-299 is such a rejection. -/
theorem C3_rejection_gives_fixed_error (s : State) (err1 err2 : AxiosError) :
    (generateDebateArguments_resume s (.rejected err1)).state.error
      = "Failed to generate debate arguments. Please try again." ∧
    (generateDebateArguments_resume s (.rejected err1)).state.isLoading = false ∧
    (generateDebateArguments_resume s (.rejected err1)).state.topic = s.topic ∧
    (generateDebateArguments_resume s (.rejected err1)).state.debateData = s.debateData ∧
    (generateDebateArguments_resume s (.rejected err1)).state
      = (generateDebateArguments_resume s (.rejected err2)).state ∧
    renderForm (generateDebateArguments_resume s (.rejected err1)).state
      = renderForm (generateDebateArguments_resume s (.rejected err2)).state ∧
    (generateDebateArguments_resume s (.rejected err1)).logged
      = [{ label := "Error generating debate arguments:", err := err1 }] ∧
    (∀ reason, ∃ err, axiosSettle (.noResponse reason) = .rejected err) ∧
    (∀ r : Response, (200 ≤ r.status ∧ r.status < 300) ∨
      ∃ err, axiosSettle (.answered r) = .rejected err) := by
  refine ⟨rfl, rfl, rfl, rfl, rfl, rfl, rfl, fun reason => ⟨_, rfl⟩, fun r => ?_⟩
  by_cases hr : 200 ≤ r.status ∧ r.status < 300
  · exact Or.inl hr
  · refine Or.inr ⟨{ message := "Request failed with status code " ++ toString r.status,
                      response := some r }, ?_⟩
    show (if 200 ≤ r.status ∧ r.status < 300 then Settled.fulfilled r else _) = _
    rw [if_neg hr]

/-! ## Sample topics -/

/-- C8: the `onClick` of a sample button, for any text and any world, sets `topic`
to that text, issues no request, and leaves `debateData`, `isLoading` and
`error` unchanged; each button passes its own label to `setTopic`, and the
labels are the six sample topics in order. -/
theorem C8_select_sample_sets_topic_only (envUrl : Option String) (w : World)
    (sampleTopic : String) :
    (∃ w1, step envUrl w (.selectSample sampleTopic) = some w1 ∧
      w1.ui.topic = sampleTopic ∧
      w1.sent = w.sent ∧ w1.pending = w.pending ∧ w1.console = w.console ∧
      w1.ui.debateData = w.ui.debateData ∧
      w1.ui.isLoading = w.ui.isLoading ∧
      w1.ui.error = w.ui.error) ∧
    (sampleButtonsFrom w.ui.isLoading 0 sampleTopics).map SampleButtonView.onClickTopic
      = sampleTopics ∧
    (sampleButtonsFrom w.ui.isLoading 0 sampleTopics).map SampleButtonView.label
      = sampleTopics :=
  ⟨⟨_, rfl, rfl, rfl, rfl, rfl, rfl, rfl, rfl⟩, rfl, rfl⟩

/-! ## The submit guard -/

theorem sampleButtonsFrom_disabled (isLoading : Bool) (ts : List String) (i : Nat) :
    ∀ b ∈ sampleButtonsFrom isLoading i ts, b.disabled = isLoading := by
  induction ts generalizing i with
  | nil => intro b hb; cases hb
  | cons t rest ih =>
      intro b hb
      simp only [sampleButtonsFrom, List.mem_cons] at hb
      rcases hb with hb | hb
      · rw [hb]
      · exact ih (i + 1) b hb

theorem submit_disabled_iff (s : State) :
    (renderForm s).submit.disabled = true ↔ (s.isLoading = true ∨ jsTrim s.topic = "") := by
  simp [renderForm, JsValue.truthy]

/-- C10: the submit button is disabled exactly when `isLoading` is true or the
topic trims to the empty string; hence while loading the submit button, the
topic input and every sample button rendered are disabled, and whenever the
submit button is enabled a submit takes the request branch: it issues a request,
sets `isLoading`, and leaves `error` empty rather than the validation message. -/
theorem C10_submit_guard (envUrl : Option String) (s : State) :
    ((renderForm s).submit.disabled = true ↔
      (s.isLoading = true ∨ jsTrim s.topic = "")) ∧
    (s.isLoading = true →
      (renderForm s).submit.disabled = true ∧
      (renderForm s).input.disabled = true ∧
      ∀ buttons, renderSamples s = .element buttons →
        ∀ b ∈ buttons, b.disabled = true) ∧
    ((renderForm s).submit.disabled = false →
      ∃ req, (handleSubmit envUrl s).request = some req ∧
        (handleSubmit envUrl s).state.isLoading = true ∧
        (handleSubmit envUrl s).state.error = "" ∧
        (handleSubmit envUrl s).state.error ≠ "Please enter a debate topic") := by
  refine ⟨submit_disabled_iff s, ?_, ?_⟩
  · intro hl
    refine ⟨(submit_disabled_iff s).2 (Or.inl hl), hl, ?_⟩
    intro buttons hb b hmem
    unfold renderSamples at hb
    split at hb
    · injection hb with hb
      subst hb
      rw [sampleButtonsFrom_disabled _ _ _ b hmem, hl]
    · cases hb
  · intro hd
    have hne : jsTrim s.topic ≠ "" := by
      intro h0
      have := (submit_disabled_iff s).2 (Or.inr h0)
      rw [hd] at this
      cases this
    have hg := generateDebateArguments_nonblank envUrl s hne
    unfold handleSubmit
    rw [hg]
    have hmsg : ("" : String) ≠ "Please enter a debate topic" := by decide
    exact ⟨_, rfl, rfl, rfl, hmsg⟩

theorem C10_submit_guard_witness :
    ((renderForm loadingState).submit.disabled = true ∧
      (renderForm loadingState).input.disabled = true ∧
      ∀ buttons, renderSamples loadingState = .element buttons →
        ∀ b ∈ buttons, b.disabled = true) ∧
    ∃ req, (handleSubmit none readyState).request = some req ∧
      (handleSubmit none readyState).state.isLoading = true ∧
      (handleSubmit none readyState).state.error = "" ∧
      (handleSubmit none readyState).state.error ≠ "Please enter a debate topic" :=
  ⟨(C10_submit_guard none loadingState).2.1 (by decide),
   (C10_submit_guard none readyState).2.2 (by decide)⟩

/-! ## Bodies that are not debate results -/

/-- C7 as stated fails: a 200 response whose body lacks `arguments_for` (and has
a non-list `arguments_against`) is a fulfilled promise; the continuation stores
the body as `debateData`, leaves `error` empty instead of the fixed message and
logs nothing; rendering the stored body throws. -/
theorem C7_malformed_body_is_stored :
    axiosSettle (.answered malformedResponse) = .fulfilled malformedResponse ∧
    malformedResponse.data.getProp "arguments_for" = some .undefined ∧
    malformedResponse.data.getProp "arguments_against" = some (.str "none") ∧
    (generateDebateArguments_resume loadingState
      (axiosSettle (.answered malformedResponse))).state.error = "" ∧
    (generateDebateArguments_resume loadingState
      (axiosSettle (.answered malformedResponse))).state.error
        ≠ "Failed to generate debate arguments. Please try again." ∧
    (generateDebateArguments_resume loadingState
      (axiosSettle (.answered malformedResponse))).state.debateData
        = malformedResponse.data ∧
    (generateDebateArguments_resume loadingState
      (axiosSettle (.answered malformedResponse))).logged = [] ∧
    renderResults malformedResponse.data = none :=
  ⟨rfl, rfl, rfl, rfl, by decide, rfl, rfl, rfl⟩

/-- C7 amended: a response with a status in 200-299 is stored whatever its body:
the continuation sets `debateData` to the body as received, sets `isLoading` to
false, leaves `error` and `topic` as they were and logs nothing. -/
theorem C7_success_status_stores_any_body (s : State) (r : Response)
    (hlo : 200 ≤ r.status) (hhi : r.status < 300) :
    axiosSettle (.answered r) = .fulfilled r ∧
    (generateDebateArguments_resume s (axiosSettle (.answered r))).state.debateData
      = r.data ∧
    (generateDebateArguments_resume s (axiosSettle (.answered r))).state.isLoading
      = false ∧
    (generateDebateArguments_resume s (axiosSettle (.answered r))).state.error
      = s.error ∧
    (generateDebateArguments_resume s (axiosSettle (.answered r))).state.topic
      = s.topic ∧
    (generateDebateArguments_resume s (axiosSettle (.answered r))).logged = [] := by
  have hs : axiosSettle (.answered r) = .fulfilled r := by
    show (if 200 ≤ r.status ∧ r.status < 300 then Settled.fulfilled r else _) = _
    rw [if_pos ⟨hlo, hhi⟩]
  rw [hs]
  exact ⟨rfl, rfl, rfl, rfl, rfl, rfl⟩

theorem C7_success_status_stores_any_body_witness :
    axiosSettle (.answered { status := 204, data := .str "" })
      = .fulfilled { status := 204, data := .str "" } ∧
    (generateDebateArguments_resume loadingState
      (axiosSettle (.answered { status := 204, data := .str "" }))).state.debateData
        = .str "" ∧
    (generateDebateArguments_resume loadingState
      (axiosSettle (.answered { status := 204, data := .str "" }))).state.isLoading
        = false ∧
    (generateDebateArguments_resume loadingState
      (axiosSettle (.answered { status := 204, data := .str "" }))).state.error
        = loadingState.error ∧
    (generateDebateArguments_resume loadingState
      (axiosSettle (.answered { status := 204, data := .str "" }))).state.topic
        = loadingState.topic ∧
    (generateDebateArguments_resume loadingState
      (axiosSettle (.answered { status := 204, data := .str "" }))).logged = [] :=
  C7_success_status_stores_any_body loadingState { status := 204, data := .str "" }
    (by decide) (by decide)

/-! ## The stored result over time -/

theorem generateDebateArguments_debateData (envUrl : Option String) (s : State) :
    (generateDebateArguments envUrl s).state.debateData = s.debateData := by
  unfold generateDebateArguments
  split <;> rfl

theorem step_debateData (envUrl : Option String) (w w1 : World) (e : Event)
    (h : step envUrl w e = some w1) :
    w1.ui.debateData =
      match e with
      | .settle _ (.fulfilled response) => response.data
      | _ => w.ui.debateData := by
  cases e with
  | changeTopic text => injection h with h; subst h; rfl
  | selectSample sampleTopic => injection h with h; subst h; rfl
  | submit =>
      injection h with h
      subst h
      exact generateDebateArguments_debateData envUrl w.ui
  | settle index outcome =>
      simp only [step] at h
      split at h
      · injection h with h
        subst h
        cases outcome <;> rfl
      · cases h

theorem run_debateData (envUrl : Option String) (es : List Event) (w w1 : World)
    (h : run envUrl w es = some w1) :
    w1.ui.debateData = (lastFulfilled es).getD w.ui.debateData := by
  induction es generalizing w with
  | nil =>
      injection h with h
      subst h
      rfl
  | cons e rest ih =>
      simp only [run] at h
      cases hs : step envUrl w e with
      | none => rw [hs] at h; cases h
      | some w2 =>
          rw [hs] at h
          have h1 := ih w2 h
          have h2 := step_debateData envUrl w w2 e hs
          rw [h1]
          simp only [lastFulfilled]
          cases hl : lastFulfilled rest with
          | some body => rfl
          | none =>
              simp only [Option.getD]
              rw [h2]
              cases e with
              | settle index outcome => cases outcome <;> rfl
              | _ => rfl

/-- C5: after any sequence of events handled from any world (in particular any
sequence of settlements of requests in flight) that contains a fulfilled
settlement, `debateData` equals the body of the last fulfilled response, whole;
and when a newer request is answered before an older one, the older response
replaces the newer result. -/
theorem C5_last_fulfilled_wins (envUrl : Option String) (w : World) :
    (∀ es w1 body, run envUrl w es = some w1 → lastFulfilled es = some body →
      w1.ui.debateData = body) ∧
    (∀ older newer rOld rNew, older < newer → newer < w.pending.length →
      ∃ w1 w2, step envUrl w (.settle newer (.fulfilled rNew)) = some w1 ∧
        w1.ui.debateData = rNew.data ∧
        step envUrl w1 (.settle older (.fulfilled rOld)) = some w2 ∧
        w2.ui.debateData = rOld.data) := by
  constructor
  · intro es w1 body hrun hlast
    have h := run_debateData envUrl es w w1 hrun
    rw [hlast] at h
    exact h
  · intro older newer rOld rNew h1 h2
    have hlen : older < (w.pending.eraseIdx newer).length := by
      rw [List.length_eraseIdx_of_lt h2]
      omega
    obtain ⟨w1, hw1⟩ : ∃ w1, step envUrl w (.settle newer (.fulfilled rNew)) = some w1 := by
      simp only [step]
      rw [if_pos h2]
      exact ⟨_, rfl⟩
    have hp : w1.pending = w.pending.eraseIdx newer := by
      simp only [step] at hw1
      rw [if_pos h2] at hw1
      injection hw1 with hw1
      subst hw1
      rfl
    obtain ⟨w2, hw2⟩ : ∃ w2, step envUrl w1 (.settle older (.fulfilled rOld)) = some w2 := by
      simp only [step]
      rw [hp, if_pos hlen]
      exact ⟨_, rfl⟩
    exact ⟨w1, w2, hw1, step_debateData envUrl w w1 _ hw1, hw2,
      step_debateData envUrl w1 w2 _ hw2⟩

theorem C5_last_fulfilled_wins_witness :
    (run none twoInFlight mixedSettlements = some afterMixedSettlements ∧
      lastFulfilled mixedSettlements = some otherResponse.data ∧
      afterMixedSettlements.ui.debateData = otherResponse.data) ∧
    ∃ w1 w2, step none twoInFlight (.settle 1 (.fulfilled exampleResponse)) = some w1 ∧
      w1.ui.debateData = exampleResponse.data ∧
      step none w1 (.settle 0 (.fulfilled otherResponse)) = some w2 ∧
      w2.ui.debateData = otherResponse.data :=
  ⟨⟨rfl, rfl, (C5_last_fulfilled_wins none twoInFlight).1 mixedSettlements
      afterMixedSettlements otherResponse.data rfl rfl⟩,
   (C5_last_fulfilled_wins none twoInFlight).2 0 1 otherResponse exampleResponse
      (by decide) (by decide)⟩

/-! ## A new submit while a result is stored -/

/-- C6 as stated fails: in the state reached by one successful cycle (a result
is stored, nothing is loading), a new submit with a non-blank topic moves to
loading and issues a request, yet `debateData` is still the previous body, not
null, and the results section is still rendered next to the disabled form. -/
theorem C6_previous_result_kept_on_submit :
    run none World.init oneCycle = some successWorld ∧
    successWorld.ui.isLoading = false ∧
    successWorld.ui.debateData = exampleResponse.data ∧
    jsTrim successWorld.ui.topic ≠ "" ∧
    ∃ w1, step none successWorld .submit = some w1 ∧
      w1.pending.length = 1 ∧
      w1.ui.isLoading = true ∧
      w1.ui.debateData = exampleResponse.data ∧
      w1.ui.debateData ≠ .null ∧
      ∃ view shown, Home w1.ui = some view ∧ view.results = .element shown ∧
        view.form.submit.disabled = true :=
  ⟨rfl, rfl, rfl, (by decide), _, rfl, rfl, rfl, rfl, (fun h => by cases h), _, _, rfl, rfl, rfl⟩

/-- C6 amended: a submit with a topic that is non-empty after trimming moves to
loading and clears the previous error, and keeps the stored result: right after
the submit `debateData` is what it was before, and the results section renders
as before. -/
theorem C6_submit_keeps_result (envUrl : Option String) (w : World)
    (h : jsTrim w.ui.topic ≠ "") :
    ∃ w1, step envUrl w .submit = some w1 ∧
      w1.ui.isLoading = true ∧
      w1.ui.error = "" ∧
      w1.ui.topic = w.ui.topic ∧
      w1.ui.debateData = w.ui.debateData ∧
      renderResults w1.ui.debateData = renderResults w.ui.debateData := by
  have hg := generateDebateArguments_nonblank envUrl w.ui h
  refine ⟨_, rfl, ?_, ?_, ?_, ?_, ?_⟩ <;> simp [handleSubmit, hg, setError, setIsLoading]

theorem C6_submit_keeps_result_witness :
    jsTrim successWorld.ui.topic ≠ "" ∧
    ∃ w1, step none successWorld .submit = some w1 ∧
      w1.ui.isLoading = true ∧
      w1.ui.error = "" ∧
      w1.ui.topic = successWorld.ui.topic ∧
      w1.ui.debateData = successWorld.ui.debateData ∧
      renderResults w1.ui.debateData = renderResults successWorld.ui.debateData :=
  ⟨by decide, C6_submit_keeps_result none successWorld (by decide)⟩

/-! ## Which of the flags can hold together -/

theorem reachable_of_runAllowed (envUrl : Option String) (es : List Event) (w w1 : World)
    (hw : Reachable envUrl w) (h : runAllowed envUrl w es = some w1) :
    Reachable envUrl w1 := by
  induction es generalizing w with
  | nil =>
      injection h with h
      subst h
      exact hw
  | cons e rest ih =>
      simp only [runAllowed] at h
      split at h
      · rename_i ha
        cases hs : step envUrl w e with
        | none => rw [hs] at h; cases h
        | some w2 =>
            rw [hs] at h
            exact ih w2 (Reachable.next e hw ha hs) h
      · cases h

/-- C9 as stated fails: after a successful cycle and a second submit made while
the button is enabled, the reachable state is loading and holds a result; and
if that second request then fails, the reachable state holds an error and a
result.  Neither state has at most one flag set. -/
theorem C9_result_coexists_with_loading_and_error :
    (Reachable none loadingWithResult ∧
      loadingWithResult.ui.isLoading = true ∧
      loadingWithResult.ui.debateData ≠ .null ∧
      ¬ AtMostOneActive loadingWithResult.ui) ∧
    (Reachable none errorWithResult ∧
      errorWithResult.ui.error ≠ "" ∧
      errorWithResult.ui.debateData ≠ .null ∧
      ¬ AtMostOneActive errorWithResult.ui) := by
  have hd1 : loadingWithResult.ui.debateData ≠ .null := by intro h; cases h
  have hd2 : errorWithResult.ui.debateData ≠ .null := by intro h; cases h
  have he2 : errorWithResult.ui.error ≠ "" := by decide
  refine ⟨⟨reachable_of_runAllowed none resubmit _ _ Reachable.init rfl, rfl, hd1, ?_⟩,
    ⟨reachable_of_runAllowed none resubmitFails _ _ Reachable.init rfl, he2, hd2, ?_⟩⟩
  · intro h
    exact h.2.1 ⟨rfl, hd1⟩
  · intro h
    exact h.2.2 ⟨he2, hd2⟩

theorem step_loading_error (envUrl : Option String) (w w1 : World) (e : Event)
    (hinv : w.ui.isLoading = true → w.ui.error = "")
    (ha : allowed w e = true) (hs : step envUrl w e = some w1) :
    w1.ui.isLoading = true → w1.ui.error = "" := by
  cases e with
  | changeTopic text => injection hs with hs; subst hs; exact hinv
  | selectSample sampleTopic => injection hs with hs; subst hs; exact hinv
  | submit =>
      injection hs with hs
      subst hs
      by_cases hb : jsTrim w.ui.topic = ""
      · have hg := generateDebateArguments_blank envUrl w.ui hb
        have hdis : (renderForm w.ui).submit.disabled = true :=
          (submit_disabled_iff w.ui).2 (Or.inr hb)
        have hnl : w.ui.isLoading = false := by
          simp only [allowed, hdis] at ha
          simpa using ha
        intro hl
        simp only [handleSubmit, hg, setError] at hl
        rw [hnl] at hl
        cases hl
      · have hg := generateDebateArguments_nonblank envUrl w.ui hb
        intro _
        simp only [handleSubmit, hg]
        rfl
  | settle index outcome =>
      simp only [step] at hs
      split at hs
      · injection hs with hs
        subst hs
        intro hl
        cases outcome <;> cases hl
      · cases hs

/-- C9 amended: in every state reachable from the initial one by topic edits,
sample selections, submits made only while the submit button is enabled or the
state is not loading, and settlements of requests in flight, loading and error
exclude each other: `isLoading = true` and a non-empty `error` never hold
together. -/
theorem C9_loading_excludes_error (envUrl : Option String) (w : World)
    (h : Reachable envUrl w) :
    ¬ (w.ui.isLoading = true ∧ w.ui.error ≠ "") := by
  have hinv : w.ui.isLoading = true → w.ui.error = "" := by
    induction h with
    | init => intro _; rfl
    | next e _ ha hs ih => exact step_loading_error envUrl _ _ e ih ha hs
  intro hc
  exact hc.2 (hinv hc.1)

theorem C9_loading_excludes_error_witness :
    Reachable none loadingWithResult ∧
    ¬ (loadingWithResult.ui.isLoading = true ∧ loadingWithResult.ui.error ≠ "") :=
  ⟨reachable_of_runAllowed none resubmit _ _ Reachable.init rfl,
   C9_loading_excludes_error none loadingWithResult
     (reachable_of_runAllowed none resubmit _ _ Reachable.init rfl)⟩

/-! ## Rendering a stored result -/

theorem mapFrom_renderFact (items : List JsValue) (k : Nat) :
    ∃ fs, mapFrom renderFact k items = some fs ∧
      fs.map FactView.fact = items ∧
      fs.map FactView.key = List.range' k items.length := by
  induction items generalizing k with
  | nil => exact ⟨[], rfl, rfl, rfl⟩
  | cons x rest ih =>
      obtain ⟨fs, h1, h2, h3⟩ := ih (k + 1)
      refine ⟨{ key := k, fact := x } :: fs, ?_, ?_, ?_⟩
      · simp only [mapFrom, renderFact, h1]
      · simp [h2]
      · simp [h3, List.range'_succ]

theorem renderArgument_of_isArgument (v : JsValue) (a : Argument) (index : Nat)
    (h : IsArgument v a) :
    ∃ e, renderArgument v index = some e ∧ ShowsArgument index a e := by
  obtain ⟨fs, h1, h2, h3⟩ := mapFrom_renderFact (a.supporting_facts.map JsValue.str) 0
  refine ⟨{ key := index, number := index + 1, point := .str a.point, facts := fs }, ?_, ?_⟩
  · simp only [renderArgument, h.1, h.2, JsValue.jsMap, h1]
  · refine ⟨rfl, rfl, rfl, h2, ?_⟩
    rw [h3, List.length_map, List.range_eq_range']

theorem mapFrom_renderArgument (items : List JsValue) (args : List Argument) (k : Nat)
    (h : List.Forall₂ IsArgument items args) :
    ∃ es, mapFrom renderArgument k items = some es ∧
      es.length = args.length ∧
      ∀ i a, args[i]? = some a → ∃ e, es[i]? = some e ∧ ShowsArgument (k + i) a e := by
  induction h generalizing k with
  | nil => exact ⟨[], rfl, rfl, by intro i a hi; simp at hi⟩
  | @cons v a0 vs as0 hva _ ih =>
      obtain ⟨e0, he0, hs0⟩ := renderArgument_of_isArgument v a0 k hva
      obtain ⟨es, hes, hlen, hall⟩ := ih (k + 1)
      refine ⟨e0 :: es, ?_, ?_, ?_⟩
      · simp only [mapFrom, he0, hes]
      · simp [hlen]
      · intro i a hi
        cases i with
        | zero =>
            simp at hi
            subst hi
            exact ⟨e0, by simp, hs0⟩
        | succ j =>
            simp at hi
            obtain ⟨e, he, hs⟩ := hall j a hi
            refine ⟨e, by simpa using he, ?_⟩
            have : k + (j + 1) = k + 1 + j := by omega
            rw [this]
            exact hs

theorem renderColumn_of_args (v : JsValue) (field topic : String) (items : List JsValue)
    (args : List Argument)
    (ht : v.getProp "topic" = some (.str topic))
    (hf : v.getProp field = some (.arr items))
    (h : List.Forall₂ IsArgument items args) :
    ∃ col, renderColumn v field = some col ∧ col.topic = .str topic ∧
      col.entries.length = args.length ∧
      ∀ i a, args[i]? = some a → ∃ e, col.entries[i]? = some e ∧ ShowsArgument i a e := by
  obtain ⟨es, hes, hlen, hall⟩ := mapFrom_renderArgument items args 0 h
  refine ⟨{ topic := .str topic, entries := es }, ?_, rfl, hlen, ?_⟩
  · simp only [renderColumn, ht, hf, JsValue.jsMap, hes]
  · intro i a hi
    obtain ⟨e, he, hs⟩ := hall i a hi
    rw [Nat.zero_add] at hs
    exact ⟨e, he, hs⟩

theorem truthy_of_isDebateResult (v : JsValue) (d : DebateResult)
    (h : IsDebateResult v d) : v.truthy = true := by
  have ht := h.1
  cases v <;> simp [JsValue.getProp, JsValue.truthy] at ht ⊢

/-- C4: when the stored `debateData` carries a debate result with N arguments for
and M against, the component renders the results section with exactly N blocks
in the first card and M in the second; the block at position i is the one of the
i-th argument of the response, numbered i + 1 and showing its point, and its
list has one item per supporting fact, in the order of the response. -/
theorem C4_results_rendered_in_order (s : State) (d : DebateResult)
    (h : IsDebateResult s.debateData d) :
    ∃ view shown, Home s = some view ∧ view.results = .element shown ∧
      shown.argumentsFor.entries.length = d.arguments_for.length ∧
      shown.argumentsAgainst.entries.length = d.arguments_against.length ∧
      (∀ i a, d.arguments_for[i]? = some a →
        ∃ e, shown.argumentsFor.entries[i]? = some e ∧ ShowsArgument i a e) ∧
      (∀ i a, d.arguments_against[i]? = some a →
        ∃ e, shown.argumentsAgainst.entries[i]? = some e ∧ ShowsArgument i a e) := by
  have htruthy := truthy_of_isDebateResult s.debateData d h
  obtain ⟨ht, ⟨fors, hf, hfa⟩, ⟨againsts, hg, hga⟩⟩ := h
  obtain ⟨c1, hc1, _, hl1, ha1⟩ :=
    renderColumn_of_args s.debateData "arguments_for" d.topic fors d.arguments_for ht hf hfa
  obtain ⟨c2, hc2, _, hl2, ha2⟩ :=
    renderColumn_of_args s.debateData "arguments_against" d.topic againsts
      d.arguments_against ht hg hga
  refine ⟨{ form := renderForm s
            results := .element { argumentsFor := c1, argumentsAgainst := c2 }
            samples := renderSamples s },
    { argumentsFor := c1, argumentsAgainst := c2 }, ?_, rfl, hl1, hl2, ha1, ha2⟩
  simp only [Home, renderResults, htruthy, hc1, hc2, if_true]

theorem exampleResponse_isDebateResult : IsDebateResult exampleResponse.data exampleResult :=
  ⟨rfl,
   ⟨_, rfl, List.Forall₂.cons ⟨rfl, rfl⟩ List.Forall₂.nil⟩,
   ⟨_, rfl, List.Forall₂.cons ⟨rfl, rfl⟩ List.Forall₂.nil⟩⟩

theorem C4_results_rendered_in_order_witness :
    IsDebateResult successWorld.ui.debateData exampleResult ∧
    ∃ view shown, Home successWorld.ui = some view ∧ view.results = .element shown ∧
      shown.argumentsFor.entries.length = exampleResult.arguments_for.length ∧
      shown.argumentsAgainst.entries.length = exampleResult.arguments_against.length ∧
      (∀ i a, exampleResult.arguments_for[i]? = some a →
        ∃ e, shown.argumentsFor.entries[i]? = some e ∧ ShowsArgument i a e) ∧
      (∀ i a, exampleResult.arguments_against[i]? = some a →
        ∃ e, shown.argumentsAgainst.entries[i]? = some e ∧ ShowsArgument i a e) :=
  ⟨exampleResponse_isDebateResult,
   C4_results_rendered_in_order successWorld.ui exampleResult exampleResponse_isDebateResult⟩

end DebateSpark
